import Mathlib

/-!
Shallow embedding of `src/main.rs` of the `trayme` repository: a tray wrapper
that supervises one child process via a single-threaded polling event loop.

The embedding models:
- the `TrayMessage` enum with its `Display` and `FromStr` implementations;
- `run_event_loop`, the per-tick decision function, as a pure function from a
  tick environment (the results the OS and the tray channel would return on
  this tick) to a tick result plus the observable side effects of the tick;
- the closure passed to `event_loop.run` in `main`, as a step function on the
  surviving program state (`control_flow`, the `Option<TrayIcon>` cell);
- whole runs of the outer loop as a fold of that step function, plus the
  release of the tray icon performed by Rust ownership when the event loop
  tears down after `ControlFlow::Exit`.

External collaborators (`try_wait`, `try_recv`, `kill`, `get_logs_dir`,
`open::that`, `Notification::show`) are oracles: each tick environment fixes
what they would return on that tick, and the embedding translates the literal
control flow of the Rust source over those answers.
-/

namespace Trayme

/-- Result of `std::process::ExitStatus` as observed by the loop:
`success` is `ExitStatus::success()` (true exactly when the exit code is 0),
`display` is the `Display` rendering used in the notification body. -/
structure ExitStatus where
  success : Bool
  display : String
deriving DecidableEq

/-- The `tao::event_loop::ControlFlow` values used by the program. -/
inductive ControlFlow
  | Poll
  | Exit
deriving DecidableEq

/-- The `TrayMessage` enum from `main.rs`. -/
inductive TrayMessage
  | Kill
  | ShowLogs
deriving DecidableEq

/-- `impl Display for TrayMessage` (main.rs lines 40-47). -/
def TrayMessage.fmt : TrayMessage → String
  | TrayMessage.Kill => "Kill"
  | TrayMessage.ShowLogs => "Show Logs"

/-- `strum::ParseError`, the error type of `TrayMessage::from_str`. -/
inductive ParseError
  | VariantNotFound
deriving DecidableEq

/-- `impl FromStr for TrayMessage` (main.rs lines 49-59): the two known
labels decode to their variants, every other string is a decode error. -/
def TrayMessage.from_str (s : String) : Except ParseError TrayMessage :=
  if s = "Kill" then Except.ok TrayMessage.Kill
  else if s = "Show Logs" then Except.ok TrayMessage.ShowLogs
  else Except.error ParseError.VariantNotFound

/-- The oracle answers of one tick: what each external call of
`run_event_loop` would return if reached on this tick.
`try_wait`: `Ok(None)` while the child runs, `Ok(Some(status))` once exited,
`Err` when the OS query fails. `menu_event`: the pending tray-menu event's
identifier string, if `try_recv` would succeed. The remaining fields are the
results of `Child::kill`, `get_logs_dir`, `open::that`, and
`Notification::show`. -/
structure TickEnv where
  try_wait : Except String (Option ExitStatus)
  menu_event : Option String
  kill_result : Except String Unit
  logs_dir : Except String String
  open_result : Except String Unit
  notify_result : Except String Unit

/-- The error paths that `run_event_loop` propagates with `?`, tagged by the
call that produced them (all are `anyhow::Error` in the source). -/
inductive LoopError
  | queryError (e : String)
  | decodeError (e : ParseError)
  | killError (e : String)
  | logsDirError (e : String)
  | openError (e : String)
deriving DecidableEq

/-- The observable side effects of one invocation of `run_event_loop`:
notifications attempted (title, body), number of `Child::kill` calls, number
of `open::that` calls, and whether a tray-menu event was consumed from the
channel by `try_recv`. -/
structure TickEffects where
  notifyShown : List (String × String)
  killAttempts : Nat
  openAttempts : Nat
  menuConsumed : Bool
deriving DecidableEq

/-- The empty side-effect record. -/
def TickEffects.empty : TickEffects := ⟨[], 0, 0, false⟩

/-- Outcome of one invocation of `run_event_loop`: a normal return of a
`ControlFlow`, an `anyhow` error propagated to the caller, or a panic
(`show_notification` calls `unreachable!` when the display fails). -/
inductive TickResult
  | ok (cf : ControlFlow)
  | error (e : LoopError)
  | panicked (msg : String)
deriving DecidableEq

/-- `show_notification` (main.rs lines 173-182): attempts to display the
notification; on failure the source calls
`unreachable!("Failed to show notification: ...")`, i.e. it panics. Returns
the attempted (title, body) pair and the panic message, if any. -/
def show_notification (notify_result : Except String Unit) (title body : String) :
    (String × String) × Option String :=
  (⟨title, body⟩,
    match notify_result with
    | Except.ok _ => none
    | Except.error e => some ("Failed to show notification: " ++ e))

/-- `run_event_loop` (main.rs lines 86-118), as a pure function of the tick
environment. Mirrors the source order: first `child_proc.try_wait()?`; if the
child exited, notify and return `Exit`; otherwise `menu_channel.try_recv()`;
a pending event is decoded with `TrayMessage::from_str(...)?`; `Kill` calls
`child_proc.kill()?` then returns `Exit`; `ShowLogs` calls `get_logs_dir()?`
then `open::that(...)?` and falls through; the final return is `Poll`. -/
def run_event_loop (env : TickEnv) : TickResult × TickEffects :=
  match env.try_wait with
  | Except.error e => (TickResult.error (LoopError.queryError e), TickEffects.empty)
  | Except.ok (some status) =>
      let shown := show_notification env.notify_result "Process exited"
        ("Exit code: " ++ status.display)
      let effs : TickEffects := ⟨[shown.1], 0, 0, false⟩
      match shown.2 with
      | some msg => (TickResult.panicked msg, effs)
      | none => (TickResult.ok ControlFlow.Exit, effs)
  | Except.ok none =>
      match env.menu_event with
      | none => (TickResult.ok ControlFlow.Poll, TickEffects.empty)
      | some id =>
          match TrayMessage.from_str id with
          | Except.error e =>
              (TickResult.error (LoopError.decodeError e), ⟨[], 0, 0, true⟩)
          | Except.ok TrayMessage.Kill =>
              match env.kill_result with
              | Except.error e =>
                  (TickResult.error (LoopError.killError e), ⟨[], 1, 0, true⟩)
              | Except.ok _ => (TickResult.ok ControlFlow.Exit, ⟨[], 1, 0, true⟩)
          | Except.ok TrayMessage.ShowLogs =>
              match env.logs_dir with
              | Except.error e =>
                  (TickResult.error (LoopError.logsDirError e), ⟨[], 0, 0, true⟩)
              | Except.ok _ =>
                  match env.open_result with
                  | Except.error e =>
                      (TickResult.error (LoopError.openError e), ⟨[], 0, 1, true⟩)
                  | Except.ok _ => (TickResult.ok ControlFlow.Poll, ⟨[], 0, 1, true⟩)

/-- State surviving between invocations of the closure in `main` (lines
230-245): the `control_flow` cell owned by tao, the `Option<TrayIcon>` cell
(`some ()` while the icon is held), and whether a panic has killed the
process (`dead`). -/
structure AppState where
  control_flow : ControlFlow
  tray : Option Unit
  dead : Bool
deriving DecidableEq

/-- What one invocation of the `main` closure did: the tick's side effects,
how many times the tray icon resource was released here (`tray.take()`
yielding `Some`, whose value is dropped immediately), and whether the error
branch logged an error. -/
structure StepLog where
  effects : TickEffects
  trayReleases : Nat
  loggedError : Bool
deriving DecidableEq

/-- The log of an invocation that did nothing. -/
def StepLog.noop : StepLog := ⟨TickEffects.empty, 0, false⟩

/-- The closure passed to `event_loop.run` in `main` (lines 230-245): the
guard returns immediately when `control_flow` is already `Exit`; otherwise
it runs `run_event_loop` and on `Ok(cf)` stores `cf`, on `Err` logs the
error, takes the tray icon, and stores `Exit`. A panic kills the process
(`dead`), after which no further invocation does anything. -/
def main_step (st : AppState) (env : TickEnv) : AppState × StepLog :=
  if st.dead = true then (st, StepLog.noop)
  else if st.control_flow = ControlFlow.Exit then (st, StepLog.noop)
  else
    match run_event_loop env with
    | (TickResult.ok cf, effs) => (⟨cf, st.tray, false⟩, ⟨effs, 0, false⟩)
    | (TickResult.error _, effs) =>
        (⟨ControlFlow.Exit, none, false⟩,
          ⟨effs, if st.tray.isSome then 1 else 0, true⟩)
    | (TickResult.panicked _, effs) =>
        (⟨st.control_flow, st.tray, true⟩, ⟨effs, 0, false⟩)

/-- The program state right after the setup in `main`: tao starts the loop
with `ControlFlow::Poll`, the tray icon is held, no panic occurred. -/
def initState : AppState := ⟨ControlFlow.Poll, some (), false⟩

/-- A run of the outer event loop: fold `main_step` over a sequence of tick
environments, collecting the per-invocation logs. -/
def runLoop : AppState → List TickEnv → AppState × List StepLog
  | st, [] => (st, [])
  | st, env :: rest =>
      let p := main_step st env
      let q := runLoop p.1 rest
      (q.1, p.2 :: q.2)

/-- Tray releases performed by Rust ownership at teardown: when tao stops
after `ControlFlow::Exit` it drops the closure, dropping a still-held
`TrayIcon` exactly once. A process killed by a panic is not modelled as
performing an orderly drop. -/
def teardownReleases (st : AppState) : Nat :=
  if st.dead = false ∧ st.tray.isSome = true then 1 else 0

/-- Total number of times the tray icon resource is released over a whole
run, explicit `tray.take()` releases plus the teardown drop. -/
def totalTrayReleases (st : AppState) (envs : List TickEnv) : Nat :=
  ((runLoop st envs).2.map StepLog.trayReleases).sum +
    teardownReleases (runLoop st envs).1

/-- Total number of `Child::kill` calls over a whole run. -/
def totalKillAttempts (st : AppState) (envs : List TickEnv) : Nat :=
  ((runLoop st envs).2.map (fun l => l.effects.killAttempts)).sum

/-- Total number of notifications attempted over a whole run. -/
def totalNotifyShown (st : AppState) (envs : List TickEnv) : Nat :=
  ((runLoop st envs).2.map (fun l => l.effects.notifyShown.length)).sum

/-- A tick on which the child runs, no menu event is pending, and every
collaborator would succeed. -/
def envPoll : TickEnv :=
  ⟨Except.ok none, none, Except.ok (), Except.ok "logs", Except.ok (), Except.ok ()⟩

/-- A tick on which the child exited with code 0 and the notification
display succeeds. -/
def envExitOk : TickEnv :=
  ⟨Except.ok (some ⟨true, "exit status: 0"⟩), none, Except.ok (), Except.ok "logs",
    Except.ok (), Except.ok ()⟩

/-- A tick on which the child exited with code 0 but the notification
display fails. -/
def envNotifyFail : TickEnv :=
  ⟨Except.ok (some ⟨true, "exit status: 0"⟩), none, Except.ok (), Except.ok "logs",
    Except.ok (), Except.error "no notification daemon"⟩

/-- A tick on which the child runs and a menu event with the unknown
identifier "Quit" is pending. -/
def envBadId : TickEnv :=
  ⟨Except.ok none, some "Quit", Except.ok (), Except.ok "logs", Except.ok (),
    Except.ok ()⟩

/-- A tick on which the child runs, a "Show Logs" event is pending, and
resolving the logs directory fails. -/
def envLogsFail : TickEnv :=
  ⟨Except.ok none, some "Show Logs", Except.ok (), Except.error "no data dir",
    Except.ok (), Except.ok ()⟩

/-- A tick on which the child runs, a "Kill" event is pending, and the kill
succeeds. -/
def envKill : TickEnv :=
  ⟨Except.ok none, some "Kill", Except.ok (), Except.ok "logs", Except.ok (),
    Except.ok ()⟩

/-- A tick on which the exit query itself fails while a "Kill" event is
pending. -/
def envQueryErr : TickEnv :=
  ⟨Except.error "query failed", some "Kill", Except.ok (), Except.ok "logs",
    Except.ok (), Except.ok ()⟩

/-- Decoding the literal label "Kill". -/
theorem from_str_kill_eq : TrayMessage.from_str "Kill" = Except.ok TrayMessage.Kill := rfl

/-- Decoding the literal label "Show Logs". -/
theorem from_str_showlogs_eq :
    TrayMessage.from_str "Show Logs" = Except.ok TrayMessage.ShowLogs := rfl

/-- Once `control_flow` is `Exit`, the guard in the `main` closure returns
immediately. -/
theorem main_step_exit (st : AppState) (env : TickEnv)
    (h : st.control_flow = ControlFlow.Exit) :
    main_step st env = (st, StepLog.noop) := by
  by_cases hd : st.dead = true
  · simp [main_step, hd]
  · simp [main_step, hd, h]

/-- From an `Exit` state, a whole run of the outer loop does nothing. -/
theorem runLoop_exit (st : AppState) (envs : List TickEnv)
    (h : st.control_flow = ControlFlow.Exit) :
    runLoop st envs = (st, envs.map (fun _ => StepLog.noop)) := by
  induction envs with
  | nil => rfl
  | cons env rest ih => simp [runLoop, main_step_exit st env h, ih]

/-- Claim C9: rendering a `TrayMessage` to its display label and decoding the
label back yields the original variant, so label→variant→label round-trips
to the original label. -/
theorem traymessage_label_roundtrip (m : TrayMessage) :
    TrayMessage.from_str m.fmt = Except.ok m ∧
    (TrayMessage.from_str m.fmt).map TrayMessage.fmt = Except.ok m.fmt := by
  cases m <;> exact ⟨rfl, rfl⟩

/-- Claim C8: the tray-message decoder is total over strings: every
identifier outside the set of known labels yields a decode error (never a
panic, never a default variant), and the two known labels decode to their
corresponding variants. -/
theorem from_str_total (s : String) (h1 : s ≠ "Kill") (h2 : s ≠ "Show Logs") :
    TrayMessage.from_str s = Except.error ParseError.VariantNotFound ∧
    TrayMessage.from_str "Kill" = Except.ok TrayMessage.Kill ∧
    TrayMessage.from_str "Show Logs" = Except.ok TrayMessage.ShowLogs := by
  refine ⟨?_, rfl, rfl⟩
  simp [TrayMessage.from_str, h1, h2]

/-- Witness for `from_str_total` at the concrete unknown identifier
"Restart". -/
theorem from_str_total_witness :
    TrayMessage.from_str "Restart" = Except.error ParseError.VariantNotFound ∧
    TrayMessage.from_str "Kill" = Except.ok TrayMessage.Kill ∧
    TrayMessage.from_str "Show Logs" = Except.ok TrayMessage.ShowLogs :=
  from_str_total "Restart" (by decide) (by decide)

/-- Claim C6: once the loop has reached `Terminated` (the stored control
flow is `Exit`), every subsequent invocation of the tick logic is a no-op:
the state is unchanged and the invocation emits no notification, issues no
kill attempt, and does not release the tray icon. -/
theorem terminated_tick_noop (st : AppState) (env : TickEnv)
    (h : st.control_flow = ControlFlow.Exit) :
    main_step st env = (st, StepLog.noop) ∧
    (main_step st env).2.effects.notifyShown = [] ∧
    (main_step st env).2.effects.killAttempts = 0 ∧
    (main_step st env).2.trayReleases = 0 := by
  have hms := main_step_exit st env h
  exact ⟨hms, by rw [hms]; rfl, by rw [hms]; rfl, by rw [hms]; rfl⟩

/-- Witness for `terminated_tick_noop`: after termination, even a pending
`Kill` event is ignored. -/
theorem terminated_tick_noop_witness :
    main_step ⟨ControlFlow.Exit, some (), false⟩ envKill =
      (⟨ControlFlow.Exit, some (), false⟩, StepLog.noop) ∧
    (main_step ⟨ControlFlow.Exit, some (), false⟩ envKill).2.effects.notifyShown = [] ∧
    (main_step ⟨ControlFlow.Exit, some (), false⟩ envKill).2.effects.killAttempts = 0 ∧
    (main_step ⟨ControlFlow.Exit, some (), false⟩ envKill).2.trayReleases = 0 :=
  terminated_tick_noop ⟨ControlFlow.Exit, some (), false⟩ envKill rfl

/-- Claim C7: the exit check has priority over menu handling: a tray-menu
event is consumed in a tick exactly when the exit query reported the child
still running (so neither an exit report nor a query error reaches the menu
check) and an event was pending. -/
theorem exit_check_priority (env : TickEnv) :
    (run_event_loop env).2.menuConsumed = true ↔
      env.try_wait = Except.ok none ∧ env.menu_event.isSome = true := by
  rcases env with ⟨tw, me, kr, ld, op, nr⟩
  rcases tw with e | st
  · simp [run_event_loop, TickEffects.empty]
  · rcases st with _ | st
    · rcases me with _ | id
      · simp [run_event_loop, TickEffects.empty]
      · rcases h : TrayMessage.from_str id with e | m
        · simp [run_event_loop, h]
        · cases m
          · rcases kr with e | u
            · simp [run_event_loop, h]
            · simp [run_event_loop, h]
          · rcases ld with e | d
            · simp [run_event_loop, h]
            · rcases op with e | u
              · simp [run_event_loop, h]
              · simp [run_event_loop, h]
    · rcases nr with e | u
      · simp [run_event_loop, show_notification]
      · simp [run_event_loop, show_notification]

/-- Claim C10: when the non-blocking exit query itself errors, the tick
propagates the error with no prior side effects: no notification is
emitted, no kill attempt is made, and no tray-menu event is consumed. -/
theorem query_error_no_effects (env : TickEnv) (e : String)
    (h : env.try_wait = Except.error e) :
    run_event_loop env = (TickResult.error (LoopError.queryError e), TickEffects.empty) ∧
    (run_event_loop env).2.notifyShown = [] ∧
    (run_event_loop env).2.killAttempts = 0 ∧
    (run_event_loop env).2.menuConsumed = false := by
  have hres : run_event_loop env =
      (TickResult.error (LoopError.queryError e), TickEffects.empty) := by
    unfold run_event_loop
    rw [h]
  exact ⟨hres, by rw [hres]; rfl, by rw [hres]; rfl, by rw [hres]; rfl⟩

/-- Witness for `query_error_no_effects`: on a query-error tick the pending
`Kill` event is left unconsumed. -/
theorem query_error_no_effects_witness :
    run_event_loop envQueryErr =
      (TickResult.error (LoopError.queryError "query failed"), TickEffects.empty) ∧
    (run_event_loop envQueryErr).2.notifyShown = [] ∧
    (run_event_loop envQueryErr).2.killAttempts = 0 ∧
    (run_event_loop envQueryErr).2.menuConsumed = false :=
  query_error_no_effects envQueryErr "query failed" rfl

/-- Counterexample to claim C1: on a tick where the child exited with code 0
and the notification display fails, the tick panics (`show_notification`
calls `unreachable!`), contradicting "does not panic". -/
theorem notify_failure_panics_cex :
    (run_event_loop envNotifyFail).1 =
      TickResult.panicked "Failed to show notification: no notification daemon" := by
  decide

/-- Claim C1 (amended): a notification-display failure is never propagated
to the loop as an error value; when the display succeeds the tick completes
normally, but when it fails the tick panics (the source treats display
failure as `unreachable!`). -/
theorem notify_failure_not_error (env : TickEnv) (status : ExitStatus)
    (hwait : env.try_wait = Except.ok (some status)) :
    (env.notify_result = Except.ok () →
      (run_event_loop env).1 = TickResult.ok ControlFlow.Exit) ∧
    (∀ e, env.notify_result = Except.error e →
      (run_event_loop env).1 =
        TickResult.panicked ("Failed to show notification: " ++ e)) ∧
    (∀ le, (run_event_loop env).1 ≠ TickResult.error le) := by
  refine ⟨fun hok => ?_, fun e he => ?_, fun le => ?_⟩
  · simp [run_event_loop, show_notification, hwait, hok]
  · simp [run_event_loop, show_notification, hwait, he]
  · rcases h : env.notify_result with e | u
    · simp [run_event_loop, show_notification, hwait, h]
    · simp [run_event_loop, show_notification, hwait, h]

/-- Witness for `notify_failure_not_error` at a concrete exit tick with a
succeeding display. -/
theorem notify_failure_not_error_witness :
    (envExitOk.notify_result = Except.ok () →
      (run_event_loop envExitOk).1 = TickResult.ok ControlFlow.Exit) ∧
    (∀ e, envExitOk.notify_result = Except.error e →
      (run_event_loop envExitOk).1 =
        TickResult.panicked ("Failed to show notification: " ++ e)) ∧
    (∀ le, (run_event_loop envExitOk).1 ≠ TickResult.error le) :=
  notify_failure_not_error envExitOk ⟨true, "exit status: 0"⟩ rfl

/-- Counterexample to claim C2: on a tick carrying the unknown identifier
"Quit", the tick does not resolve to `Continue` (`Poll`); the decode error
propagates and the outer handler switches the loop to `Exit`. -/
theorem decode_error_not_continue_cex :
    (run_event_loop envBadId).1 =
      TickResult.error (LoopError.decodeError ParseError.VariantNotFound) ∧
    (run_event_loop envBadId).1 ≠ TickResult.ok ControlFlow.Poll ∧
    (main_step initState envBadId).1.control_flow = ControlFlow.Exit := by
  refine ⟨?_, ?_, ?_⟩ <;> decide

/-- Claim C2 (amended): on a tick whose pending menu event carries an
identifier outside the fixed set, the decode error is propagated out of the
tick (the event having been consumed); the outer handler logs the error,
releases the tray icon, and the loop terminates (`Exit`) instead of
continuing. -/
theorem decode_error_terminates (st : AppState) (env : TickEnv) (s : String)
    (hcf : st.control_flow ≠ ControlFlow.Exit) (hdead : st.dead = false)
    (hwait : env.try_wait = Except.ok none) (hmenu : env.menu_event = some s)
    (hbad : TrayMessage.from_str s = Except.error ParseError.VariantNotFound) :
    (run_event_loop env).1 =
      TickResult.error (LoopError.decodeError ParseError.VariantNotFound) ∧
    (run_event_loop env).2.menuConsumed = true ∧
    (main_step st env).1.control_flow = ControlFlow.Exit ∧
    (main_step st env).2.loggedError = true ∧
    (main_step st env).1.tray = none := by
  have hres : run_event_loop env =
      (TickResult.error (LoopError.decodeError ParseError.VariantNotFound),
        ⟨[], 0, 0, true⟩) := by
    simp [run_event_loop, hwait, hmenu, hbad]
  refine ⟨by rw [hres], by rw [hres], ?_, ?_, ?_⟩ <;>
    simp [main_step, hdead, hcf, hres]

/-- Witness for `decode_error_terminates` at the concrete identifier
"Quit" from the initial program state. -/
theorem decode_error_terminates_witness :
    (run_event_loop envBadId).1 =
      TickResult.error (LoopError.decodeError ParseError.VariantNotFound) ∧
    (run_event_loop envBadId).2.menuConsumed = true ∧
    (main_step initState envBadId).1.control_flow = ControlFlow.Exit ∧
    (main_step initState envBadId).2.loggedError = true ∧
    (main_step initState envBadId).1.tray = none :=
  decode_error_terminates initState envBadId "Quit" (by decide) rfl rfl rfl rfl

/-- Counterexample to claim C3: on a tick with a pending "Show Logs" event
where resolving the log directory fails, the loop does not remain `Active`:
the error propagates and the outer handler switches the loop to `Exit`. -/
theorem showlogs_failure_not_active_cex :
    (run_event_loop envLogsFail).1 =
      TickResult.error (LoopError.logsDirError "no data dir") ∧
    (main_step initState envLogsFail).1.control_flow = ControlFlow.Exit := by
  refine ⟨?_, ?_⟩ <;> decide

/-- Claim C3 (amended): on a tick with a pending `ShowLogs` event where
resolving or opening the log directory fails, the error is propagated out of
the tick; the outer handler logs it, releases the tray icon, and the loop
terminates (`Exit`) rather than remaining `Active`. -/
theorem showlogs_failure_terminates (st : AppState) (env : TickEnv)
    (hcf : st.control_flow ≠ ControlFlow.Exit) (hdead : st.dead = false)
    (hwait : env.try_wait = Except.ok none)
    (hmenu : env.menu_event = some "Show Logs")
    (hfail : (∃ e, env.logs_dir = Except.error e) ∨
      (∃ e, env.open_result = Except.error e)) :
    (∀ cf, (run_event_loop env).1 ≠ TickResult.ok cf) ∧
    (main_step st env).1.control_flow = ControlFlow.Exit ∧
    (main_step st env).2.loggedError = true ∧
    (main_step st env).1.tray = none := by
  have hres : ∃ le effs, run_event_loop env = (TickResult.error le, effs) := by
    rcases hld : env.logs_dir with e | d
    · refine ⟨LoopError.logsDirError e, ⟨[], 0, 0, true⟩, ?_⟩
      simp [run_event_loop, hwait, hmenu, from_str_showlogs_eq, hld]
    · rcases hfail with ⟨e, he⟩ | ⟨e, he⟩
      · rw [hld] at he
        exact absurd he (by simp)
      · refine ⟨LoopError.openError e, ⟨[], 0, 1, true⟩, ?_⟩
        simp [run_event_loop, hwait, hmenu, from_str_showlogs_eq, hld, he]
  obtain ⟨le, effs, hres⟩ := hres
  refine ⟨fun cf => by rw [hres]; simp, ?_, ?_, ?_⟩ <;>
    simp [main_step, hdead, hcf, hres]

/-- Witness for `showlogs_failure_terminates` at a concrete tick whose
log-directory resolution fails, from the initial program state. -/
theorem showlogs_failure_terminates_witness :
    (∀ cf, (run_event_loop envLogsFail).1 ≠ TickResult.ok cf) ∧
    (main_step initState envLogsFail).1.control_flow = ControlFlow.Exit ∧
    (main_step initState envLogsFail).2.loggedError = true ∧
    (main_step initState envLogsFail).1.tray = none :=
  showlogs_failure_terminates initState envLogsFail (by decide) rfl rfl rfl
    (Or.inl ⟨"no data dir", rfl⟩)

/-- Claim C4: on a tick where the child is still running and a `Kill` event
is pending, exactly one kill attempt is issued in that tick and over the
whole remaining run; the loop transitions to `Exit` whether or not the kill
attempt errors; and over the whole run (including teardown) the tray icon is
released exactly once. -/
theorem kill_tick_spec (st : AppState) (env : TickEnv) (rest : List TickEnv)
    (hcf : st.control_flow ≠ ControlFlow.Exit) (hdead : st.dead = false)
    (htray : st.tray = some ())
    (hwait : env.try_wait = Except.ok none)
    (hmenu : env.menu_event = some "Kill") :
    (main_step st env).2.effects.killAttempts = 1 ∧
    (main_step st env).1.control_flow = ControlFlow.Exit ∧
    totalKillAttempts st (env :: rest) = 1 ∧
    totalTrayReleases st (env :: rest) = 1 := by
  rcases hkr : env.kill_result with e | u
  · have hres : run_event_loop env =
        (TickResult.error (LoopError.killError e), ⟨[], 1, 0, true⟩) := by
      simp [run_event_loop, hwait, hmenu, from_str_kill_eq, hkr]
    have hms : main_step st env =
        (⟨ControlFlow.Exit, none, false⟩, ⟨⟨[], 1, 0, true⟩, 1, true⟩) := by
      simp [main_step, hdead, hcf, hres, htray]
    have hrl : runLoop st (env :: rest) =
        (⟨ControlFlow.Exit, none, false⟩,
          (⟨⟨[], 1, 0, true⟩, 1, true⟩ : StepLog) :: rest.map (fun _ => StepLog.noop)) := by
      simp [runLoop, hms, runLoop_exit ⟨ControlFlow.Exit, none, false⟩ rest rfl]
    refine ⟨by rw [hms], by rw [hms], ?_, ?_⟩
    · unfold totalKillAttempts
      rw [hrl]
      simp [StepLog.noop, TickEffects.empty]
    · unfold totalTrayReleases
      rw [hrl]
      simp [StepLog.noop, teardownReleases]
  · have hres : run_event_loop env =
        (TickResult.ok ControlFlow.Exit, ⟨[], 1, 0, true⟩) := by
      simp [run_event_loop, hwait, hmenu, from_str_kill_eq, hkr]
    have hms : main_step st env =
        (⟨ControlFlow.Exit, some (), false⟩, ⟨⟨[], 1, 0, true⟩, 0, false⟩) := by
      simp [main_step, hdead, hcf, hres, htray]
    have hrl : runLoop st (env :: rest) =
        (⟨ControlFlow.Exit, some (), false⟩,
          (⟨⟨[], 1, 0, true⟩, 0, false⟩ : StepLog) :: rest.map (fun _ => StepLog.noop)) := by
      simp [runLoop, hms, runLoop_exit ⟨ControlFlow.Exit, some (), false⟩ rest rfl]
    refine ⟨by rw [hms], by rw [hms], ?_, ?_⟩
    · unfold totalKillAttempts
      rw [hrl]
      simp [StepLog.noop, TickEffects.empty]
    · unfold totalTrayReleases
      rw [hrl]
      simp [StepLog.noop, teardownReleases]

/-- Witness for `kill_tick_spec`: a one-tick run from the initial state with
a pending `Kill` event and a succeeding kill. -/
theorem kill_tick_spec_witness :
    (main_step initState envKill).2.effects.killAttempts = 1 ∧
    (main_step initState envKill).1.control_flow = ControlFlow.Exit ∧
    totalKillAttempts initState [envKill] = 1 ∧
    totalTrayReleases initState [envKill] = 1 :=
  kill_tick_spec initState envKill [] (by decide) rfl rfl rfl rfl

/-- Counterexample to claim C5: on a tick where the exit query reports the
child exited with code 0 but the notification display fails, the tick does
not return `Exit` (it panics in `show_notification`), the loop does not
transition to `Exit`, and the tray icon is never released, refuting the
claim as stated over all code-0 exit ticks. -/
theorem exit_tick_notify_fail_cex :
    (run_event_loop envNotifyFail).1 ≠ TickResult.ok ControlFlow.Exit ∧
    (main_step initState envNotifyFail).1.control_flow ≠ ControlFlow.Exit ∧
    totalTrayReleases initState [envNotifyFail] = 0 := by
  refine ⟨?_, ?_, ?_⟩ <;> decide

/-- Claim C5 (amended): on a tick where the exit query reports the child
exited with code 0 (success) and the notification display succeeds, that
single tick returns `Exit`, transitions the loop to `Exit`, and attempts
exactly one "Process exited" notification; over the whole run exactly one
notification is shown and the tray icon is released exactly once. (When the
display fails instead, the tick panics — see claim C1.) -/
theorem exit_tick_spec (st : AppState) (env : TickEnv) (rest : List TickEnv)
    (status : ExitStatus)
    (hcf : st.control_flow ≠ ControlFlow.Exit) (hdead : st.dead = false)
    (htray : st.tray = some ())
    (hwait : env.try_wait = Except.ok (some status))
    (hsucc : status.success = true)
    (hnotify : env.notify_result = Except.ok ()) :
    (run_event_loop env).1 = TickResult.ok ControlFlow.Exit ∧
    (main_step st env).1.control_flow = ControlFlow.Exit ∧
    (main_step st env).2.effects.notifyShown =
      [("Process exited", "Exit code: " ++ status.display)] ∧
    totalNotifyShown st (env :: rest) = 1 ∧
    totalTrayReleases st (env :: rest) = 1 := by
  have hres : run_event_loop env =
      (TickResult.ok ControlFlow.Exit,
        ⟨[("Process exited", "Exit code: " ++ status.display)], 0, 0, false⟩) := by
    simp [run_event_loop, show_notification, hwait, hnotify]
  have hms : main_step st env =
      (⟨ControlFlow.Exit, some (), false⟩,
        ⟨⟨[("Process exited", "Exit code: " ++ status.display)], 0, 0, false⟩, 0, false⟩) := by
    simp [main_step, hdead, hcf, hres, htray]
  have hrl : runLoop st (env :: rest) =
      (⟨ControlFlow.Exit, some (), false⟩,
        (⟨⟨[("Process exited", "Exit code: " ++ status.display)], 0, 0, false⟩,
          0, false⟩ : StepLog) :: rest.map (fun _ => StepLog.noop)) := by
    simp [runLoop, hms, runLoop_exit ⟨ControlFlow.Exit, some (), false⟩ rest rfl]
  refine ⟨by rw [hres], by rw [hms], by rw [hms], ?_, ?_⟩
  · unfold totalNotifyShown
    rw [hrl]
    simp [StepLog.noop, TickEffects.empty]
  · unfold totalTrayReleases
    rw [hrl]
    simp [StepLog.noop, teardownReleases]

/-- Witness for `exit_tick_spec`: a one-tick run from the initial state on
which the child exited with code 0. -/
theorem exit_tick_spec_witness :
    (run_event_loop envExitOk).1 = TickResult.ok ControlFlow.Exit ∧
    (main_step initState envExitOk).1.control_flow = ControlFlow.Exit ∧
    (main_step initState envExitOk).2.effects.notifyShown =
      [("Process exited", "Exit code: " ++ "exit status: 0")] ∧
    totalNotifyShown initState [envExitOk] = 1 ∧
    totalTrayReleases initState [envExitOk] = 1 :=
  exit_tick_spec initState envExitOk [] ⟨true, "exit status: 0"⟩ (by decide) rfl rfl
    rfl rfl rfl

end Trayme
